import Mathlib

/-!
# Verification of the Astro request-dispatch engine

Shallow embedding of the production dispatch shell (`App` in
`core/app/index.ts`), the `Pipeline` (`core/pipeline.ts`), the redirect
helpers (`core/redirects/helpers.ts`) and the `renderPage` dispatcher
(`core/render/core.ts`), together with proofs of the specified properties.

HTTP responses and headers follow the WHATWG Fetch data model used by the
runtime: a header list is an ordered list of name/value pairs with
case-insensitive names; `Headers` construction from a sequence appends each
pair in order, and `get` combines every value stored under the name,
separated by `", "`.
-/

namespace Astro

/-! ## Header lists (WHATWG Fetch model) -/

/-- A header list: ordered name/value pairs, names compared case-insensitively. -/
abbrev HeaderList := List (String × String)

/-- ASCII lower-casing of a header name (header names are ASCII and compared
byte-case-insensitively in Fetch). -/
def lowerName (s : String) : String := ⟨s.data.map Char.toLower⟩

/-- Case-insensitive equality of header names. -/
def headerNameEq (a b : String) : Bool := lowerName a == lowerName b

/-- All values stored under `name`, in list order (Fetch: "values of headers
whose name is a byte-case-insensitive match"). -/
def headersValues (hs : HeaderList) (name : String) : List String :=
  (hs.filter (fun e => headerNameEq e.1 name)).map (·.2)

/-- `Headers.prototype.get`: `none` when the name is absent, otherwise all
values under the name combined with `", "`. -/
def headersGet (hs : HeaderList) (name : String) : Option String :=
  match headersValues hs name with
  | [] => none
  | v :: vs => some (vs.foldl (fun acc x => acc ++ ", " ++ x) v)

/-- `Headers.prototype.delete`: removes every entry whose name matches
case-insensitively. -/
def headersDelete (hs : HeaderList) (name : String) : HeaderList :=
  hs.filter (fun e => !(headerNameEq e.1 name))

/-! ## Responses -/

/-- A transport-neutral response: status, status text, header list, and an
optional body (`none` models a `null` body). -/
structure HttpResponse where
  status : Nat
  statusText : String
  headers : HeaderList
  body : Option String
deriving DecidableEq, Repr

/-- The status type of `RenderErrorOptions.status` and of the `override`
argument of `App.#mergeResponses`: the TypeScript type is `404 | 500`. -/
inductive ErrorStatus where
  | s404
  | s500
deriving DecidableEq, Repr

/-- The numeric value of an `ErrorStatus`. -/
def ErrorStatus.toNat : ErrorStatus → Nat
  | .s404 => 404
  | .s500 => 500

/-- The path segment the dispatch shell interpolates for an `ErrorStatus`
(the template `` `/${status}` `` in `App.#renderError`). -/
def ErrorStatus.seg : ErrorStatus → String
  | .s404 => "404"
  | .s500 => "500"

/-! ## `App.#mergeResponses` (core/app/index.ts) -/

/-- `App.#mergeResponses(newResponse, originalResponse?, override?)`.

Without an original response the new response is returned, with its status
forced to the override's status when one is supplied.  With an original
response: the status is the override's when supplied, else the new
response's when the original's status is 200, else the original's; the
original's `Content-type` header is deleted, and the result's header list is
built from the new response's entries followed by the original's remaining
entries (the `Headers` constructor appends each pair). -/
def mergeResponses (newResponse : HttpResponse) (originalResponse : Option HttpResponse)
    (override : Option ErrorStatus) : HttpResponse :=
  match originalResponse with
  | none =>
    match override with
    | some o =>
      { status := o.toNat, statusText := newResponse.statusText,
        headers := newResponse.headers, body := newResponse.body }
    | none => newResponse
  | some originalResponse =>
    let status : Nat :=
      match override with
      | some o => o.toNat
      | none =>
        if originalResponse.status = 200 then newResponse.status
        else originalResponse.status
    let origHeaders := headersDelete originalResponse.headers "Content-type"
    { status := status,
      statusText := if status = 200 then newResponse.statusText
                    else originalResponse.statusText,
      headers := newResponse.headers ++ origHeaders,
      body := newResponse.body }

/-! ## Strings: JS `String.prototype.replace` with a string pattern -/

/-- JS `target.replace(pat, rep)` with a string pattern replaces only the
first occurrence of `pat`.  List-of-characters version; replacement text is
taken literally (the redirect templates never use `$`-patterns). -/
def replaceFirstList (pat rep : List Char) : List Char → List Char
  | [] => if pat.isPrefixOf ([] : List Char) then rep else []
  | c :: rest =>
    if pat.isPrefixOf (c :: rest) then rep ++ (c :: rest).drop pat.length
    else c :: replaceFirstList pat rep rest

/-- JS `String.prototype.replace` with a string pattern (first occurrence
only). -/
def replaceFirst (s pat rep : String) : String :=
  ⟨replaceFirstList pat.data rep.data s.data⟩

/-- JS `String.prototype.endsWith`. -/
def strEndsWith (s suffixStr : String) : Bool :=
  suffixStr.data.isSuffixOf s.data

/-- `removeTrailingForwardSlash` (`core/path.ts`); the module is not part of
the snapshot, the function strips one trailing `/` when present (mirrored by
its uses: `#baseWithoutTrailingSlash`, route normalization). -/
def removeTrailingForwardSlash (path : String) : String :=
  if strEndsWith path "/" then ⟨path.data.dropLast⟩ else path

/-! ## Route descriptors -/

/-- The `type` tag of a route (`RouteData.type`). -/
inductive RouteType where
  | page
  | endpoint
  | redirect
  | fallback
deriving DecidableEq, Repr

/-- The `redirect` field of a route: a plain destination string or an object
with an explicit status and destination. -/
inductive RedirectConfig where
  | toPath (path : String)
  | withStatus (status : Nat) (destination : String)
deriving Repr

/-- The target route stored in `RouteData.redirectRoute`: the fields the
redirect helpers read (`redirect`, `generate`, `pathname`). -/
structure TargetRoute where
  redirect : Option RedirectConfig
  generate : List (String × String) → String
  pathname : Option String

/-- A route descriptor (`RouteData`): the fields read by the dispatch shell
and the redirect helpers.  `pattern` and the patterns of `fallbackRoutes`
are modelled as decidable path predicates (the compiled regexes live in the
manifest-creation code, outside this subsystem). -/
structure RouteData where
  type : RouteType
  /-- The route's own path, e.g. `"/404"` (`RouteData.route`). -/
  route : String
  pattern : String → Bool
  fallbackRoutes : List (String → Bool)
  prerender : Bool
  redirectRoute : Option TargetRoute
  redirect : Option RedirectConfig

/-! ## Redirect helpers (core/redirects/helpers.ts) -/

/-- `routeIsRedirect`. -/
def routeIsRedirect (route : RouteData) : Bool := route.type == .redirect

/-- `routeIsFallback`. -/
def routeIsFallback (route : RouteData) : Bool := route.type == .fallback

/-- `redirectRouteGenerate(redirectRoute, data)`: when the redirect points at
another route, that route's `generate` output (else its `pathname`, else
`"/"`, following JS `||` on empty strings); when the redirect is a string
template, each param key substitutes the first occurrences of `[key]` and
`[...key]`; when absent, `"/"`; when the redirect is an object, its
`destination`. -/
def redirectRouteGenerate (redirectRoute : RouteData)
    (data : List (String × String)) : String :=
  match redirectRoute.redirectRoute with
  | some routeData =>
    let g := routeData.generate data
    if g ≠ "" then g
    else
      match routeData.pathname with
      | some p => if p ≠ "" then p else "/"
      | none => "/"
  | none =>
    match redirectRoute.redirect with
    | some (.toPath route) =>
      data.foldl
        (fun target kv =>
          replaceFirst (replaceFirst target ("[" ++ kv.1 ++ "]") kv.2)
            ("[..." ++ kv.1 ++ "]") kv.2)
        route
    | some (.withStatus _ destination) => destination
    | none => "/"

/-- `redirectRouteStatus(redirectRoute, method)`: the explicit status of the
target route's redirect object when there is one; otherwise 308 for any
method other than `GET`, else 301. -/
def redirectRouteStatus (redirectRoute : RouteData) (method : String) : Nat :=
  match redirectRoute.redirectRoute with
  | some routeData =>
    match routeData.redirect with
    | some (.withStatus s _) => s
    | _ => if method ≠ "GET" then 308 else 301
  | none => if method ≠ "GET" then 308 else 301

/-! ## Requests and the Pipeline (core/pipeline.ts) -/

/-- A transport-neutral request: the pathname the dispatch shell resolves
(after base-stripping and slash-collapse) and the HTTP method. -/
structure HttpRequest where
  pathname : String
  method : String
deriving DecidableEq, Repr

/-- `renderPage` (core/render/core.ts): redirect routes render to a bodyless
response whose status is `redirectRouteStatus` and whose `location` header is
`redirectRouteGenerate`; fallback routes render to a bodyless 404; page
routes render the component (`pageResult` stands for the runtime renderer's
output for the loaded component), failing with `CantRenderPage` when no
component instance was supplied. -/
def renderPage (route : RouteData) (method : String)
    (params : List (String × String)) (pageResult : Option HttpResponse) :
    Except String HttpResponse :=
  if routeIsRedirect route then
    .ok { status := redirectRouteStatus route method,
          statusText := "",
          headers := [("location", redirectRouteGenerate route params)],
          body := none }
  else if routeIsFallback route then
    .ok { status := 404, statusText := "", headers := [], body := none }
  else
    match pageResult with
    | none => .error "CantRenderPage"
    | some r => .ok r

/-- The endpoint-result handler slot of the `Pipeline`
(`#endpointHandler`): converts the original request and the endpoint's raw
result into a `Response`. -/
abbrev EndpointResultHandler := HttpRequest → HttpResponse → HttpResponse

/-- `Pipeline.renderRoute`, after `#tryRenderRoute` has produced `result`
(the value of the awaited render): for an endpoint route the configured
endpoint-result handler is applied to the original request and the result,
and its absence is an error; any other route type returns the result
unchanged. -/
def pipelineRenderRoute (endpointHandler : Option EndpointResultHandler)
    (routeType : RouteType) (request : HttpRequest) (result : HttpResponse) :
    Except String HttpResponse :=
  if routeType = .endpoint then
    match endpointHandler with
    | none =>
      .error "You created a pipeline that does not know how to handle the result coming from an endpoint."
    | some handler => .ok (handler request result)
  else
    .ok result

/-! ## The production dispatch shell (`App`, core/app/index.ts) -/

/-- The outcome of one `Pipeline.renderRoute` invocation as observed by the
`App`'s `try`/`catch`: a response, a thrown `EndpointNotFoundError` carrying
the endpoint's original response, or any other thrown error. -/
inductive RenderOutcome where
  | ok (response : HttpResponse)
  | endpointNotFound (originalResponse : Option HttpResponse)
  | err

/-- True when the pipeline invocation threw (either error constructor). -/
def RenderOutcome.throws : RenderOutcome → Bool
  | .ok _ => false
  | _ => true

/-- The loaded render unit of a route (`SinglePageBuiltModule`), as the
shell observes it: whether it exports `onRequest` middleware, and the
outcome of the pipeline render as a function of the render context's default
status and of whether middleware was skipped
(`skipMiddleware`/`unsetMiddlewareFunction`). -/
structure BuiltModule where
  hasOnRequest : Bool
  run : Nat → Bool → RenderOutcome

/-- The `App`'s per-instance data: the trailing-slash policy
(`trailingSlash === 'always'`), the known static assets, the raw route
matcher over the manifest (`matchRoute(pathname, manifestData)`), the module
loader (`#getModuleForRoute`), and the asset-layer fetch of a prerendered
error document (`fetch(statusURL)` in `#renderError`). -/
structure App where
  trailingSlashAlways : Bool
  assets : String → Bool
  matchRoute : String → Option RouteData
  moduleFor : RouteData → BuiltModule
  staticFetch : ErrorStatus → HttpResponse

/-- `App.match(request)`: `undefined` for known static assets, for pathnames
matching no route, and for matched routes that are prerendered (those are
served by the static layer). -/
def App.matchRequest (a : App) (pathname : String) : Option RouteData :=
  if a.assets pathname then none
  else
    match a.matchRoute pathname with
    | some routeData => if routeData.prerender then none else some routeData
    | none => none

/-- `App.#getDefaultStatusCode(routeData, pathname)`: 302 when the route's
own pattern does not match the pathname but one of its fallback routes'
patterns does; otherwise 404/500 when the route's path, with a trailing
slash removed, ends with `/404` or `/500`; otherwise 200. -/
def App.getDefaultStatusCode (routeData : RouteData) (pathname : String) : Nat :=
  if !(routeData.pattern pathname)
      && routeData.fallbackRoutes.any (fun fb => fb pathname) then 302
  else
    let route := removeTrailingForwardSlash routeData.route
    if strEndsWith route "/404" then 404
    else if strEndsWith route "/500" then 500
    else 200

/-- The bodyless `new Response(null, { status })` fabricated by
`App.#renderError` when no error route can be rendered. -/
def bodylessResponse (status : ErrorStatus) : HttpResponse :=
  { status := status.toNat, statusText := "", headers := [], body := none }

/-- The conventional error path computed by `App.#renderError`:
`` `/${status}${trailingSlash === 'always' ? '/' : ''}` ``. -/
def App.errorRoutePath (a : App) (status : ErrorStatus) : String :=
  "/" ++ status.seg ++ (if a.trailingSlashAlways then "/" else "")

/-- `App.#renderError(request, { status, response, skipMiddleware })`:
resolves the conventional error path (`/404` or `/500`, plus a trailing
slash when the policy is `always`) against the manifest.  A prerendered
error route is fetched from the asset layer and merged with a status
override.  A dynamic error route is rendered through the pipeline and the
result merged; when that render throws and middleware was not already
skipped and the error module exports `onRequest`, the shell retries once
with `skipMiddleware = true`; otherwise it falls through to a fabricated
bodyless response merged with the original. -/
def App.renderError (a : App) (status : ErrorStatus)
    (originalResponse : Option HttpResponse) (skipMiddleware : Bool) :
    HttpResponse :=
  match a.matchRoute (a.errorRoutePath status) with
  | some errorRouteData =>
    if errorRouteData.prerender then
      mergeResponses (a.staticFetch status) originalResponse (some status)
    else
      let m := a.moduleFor errorRouteData
      match m.run status.toNat skipMiddleware with
      | .ok response => mergeResponses response originalResponse none
      | _ =>
        if _h : skipMiddleware = false ∧ m.hasOnRequest = true then
          a.renderError status originalResponse true
        else
          mergeResponses (bodylessResponse status) originalResponse none
  | none => mergeResponses (bodylessResponse status) originalResponse none
termination_by (if skipMiddleware then 0 else 1)
decreasing_by simp [_h.1]

/-- `App.render(request)` (no explicit route/locals options): resolve the
route via `App.match`; with no match, the 404 error fallback.  Otherwise
render through the pipeline with the route's default status.  A thrown
`EndpointNotFoundError` maps to a 404 fallback carrying the error's original
response, any other thrown error to a 500 fallback with none.  A returned
response of a page or redirect route whose status is 404 or 500 re-enters
the error fallback with that status and the response as original; every
other case returns the response. -/
def App.render (a : App) (request : HttpRequest) : HttpResponse :=
  match a.matchRequest request.pathname with
  | none => a.renderError .s404 none false
  | some routeData =>
    let m := a.moduleFor routeData
    let defaultStatus := App.getDefaultStatusCode routeData request.pathname
    match m.run defaultStatus false with
    | .endpointNotFound orig => a.renderError .s404 orig false
    | .err => a.renderError .s500 none false
    | .ok response =>
      if routeData.type = .page ∨ routeData.type = .redirect then
        if response.status = 404 then
          a.renderError .s404 (some response) false
        else if response.status = 500 then
          a.renderError .s500 (some response) false
        else response
      else response

/-! ## Statements of spec wording, for refinement comparison -/

/-- The explicitly declared redirect status the code consults: the `status`
of the target route's `redirect` object, when the target route exists and
its `redirect` is an object (`typeof routeData?.redirect === 'object'`). -/
def declaredRedirectStatus (r : RouteData) : Option Nat :=
  match r.redirectRoute with
  | some routeData =>
    match routeData.redirect with
    | some (.withStatus s _) => some s
    | _ => none
  | none => none

/-- The default status code as claim C6 words it: 404 when the route path is
literally `/404`, 500 when literally `/500`, 302 when the pathname matches a
declared fallback route, else 200.  Stated only for comparison with
`App.getDefaultStatusCode`. -/
def claimedDefaultStatusC6 (routeData : RouteData) (pathname : String) : Nat :=
  if routeData.route = "/404" then 404
  else if routeData.route = "/500" then 500
  else if routeData.fallbackRoutes.any (fun fb => fb pathname) then 302
  else 200

/-! ## Concrete instances used as test inputs -/

/-- A fallback-type route at `/fb`. -/
def fallbackRouteC2 : RouteData :=
  { type := .fallback, route := "/fb", pattern := fun p => p = "/fb",
    fallbackRoutes := [], prerender := false, redirectRoute := none,
    redirect := none }

/-- A page route at `/p`. -/
def pageRouteC2 : RouteData :=
  { type := .page, route := "/p", pattern := fun p => p = "/p",
    fallbackRoutes := [], prerender := false, redirectRoute := none,
    redirect := none }

/-- A response with status 404 and a body, as a page may itself produce. -/
def directResponseC2 : HttpResponse :=
  { status := 404, statusText := "", headers := [], body := some "direct" }

/-- An app whose only route is the fallback-type route `/fb`; its module
renders `directResponseC2`; there is no `/404` route. -/
def appC2 : App :=
  { trailingSlashAlways := false, assets := fun _ => false,
    matchRoute := fun p => if p = "/fb" then some fallbackRouteC2 else none,
    moduleFor := fun _ =>
      { hasOnRequest := false, run := fun _ _ => .ok directResponseC2 },
    staticFetch := fun s => bodylessResponse s }

/-- An app whose only route is the page route `/p`; its module renders
`directResponseC2`. -/
def appC2W : App :=
  { trailingSlashAlways := false, assets := fun _ => false,
    matchRoute := fun p => if p = "/p" then some pageRouteC2 else none,
    moduleFor := fun _ =>
      { hasOnRequest := false, run := fun _ _ => .ok directResponseC2 },
    staticFetch := fun s => bodylessResponse s }

/-- A page route at `/404`. -/
def errorRouteC5 : RouteData :=
  { type := .page, route := "/404", pattern := fun p => p = "/404",
    fallbackRoutes := [], prerender := false, redirectRoute := none,
    redirect := none }

/-- A 200 response with a body, as a `/404` page whose render overrides the
default status may produce. -/
def okResponseC5 : HttpResponse :=
  { status := 200, statusText := "", headers := [], body := some "welcome" }

/-- An app with one dynamic `/404` page route whose module renders
`okResponseC5` (a 200 response). -/
def appC5 : App :=
  { trailingSlashAlways := false, assets := fun _ => false,
    matchRoute := fun p => if p = "/404" then some errorRouteC5 else none,
    moduleFor := fun _ =>
      { hasOnRequest := false, run := fun _ _ => .ok okResponseC5 },
    staticFetch := fun s => bodylessResponse s }

/-- An app with one dynamic `/404` page route whose module renders a
response that keeps the default 404 status. -/
def appC5W : App :=
  { trailingSlashAlways := false, assets := fun _ => false,
    matchRoute := fun p => if p = "/404" then some errorRouteC5 else none,
    moduleFor := fun _ =>
      { hasOnRequest := false,
        run := fun status _ =>
          .ok { status := status, statusText := "", headers := [],
                body := some "not found page" } },
    staticFetch := fun s => bodylessResponse s }

/-- The response a retry with `skipMiddleware = true` would produce in the
C7 counterexample app. -/
def retryResponseC7 : HttpResponse :=
  { status := 299, statusText := "", headers := [], body := some "retried" }

/-- An app whose `/404` route is dynamic, declares no `onRequest`
middleware, throws when rendered normally, and would succeed with
`retryResponseC7` if it were retried with middleware skipped. -/
def appC7 : App :=
  { trailingSlashAlways := false, assets := fun _ => false,
    matchRoute := fun p => if p = "/404" then some errorRouteC5 else none,
    moduleFor := fun _ =>
      { hasOnRequest := false,
        run := fun _ skip => if skip then .ok retryResponseC7 else .err },
    staticFetch := fun s => bodylessResponse s }

/-- An app whose `/404` route is dynamic, declares `onRequest` middleware,
and throws both with and without middleware. -/
def appC7W : App :=
  { trailingSlashAlways := false, assets := fun _ => false,
    matchRoute := fun p => if p = "/404" then some errorRouteC5 else none,
    moduleFor := fun _ => { hasOnRequest := true, run := fun _ _ => .err },
    staticFetch := fun s => bodylessResponse s }

/-- An app with one page route `/p` whose module throws a generic error;
no error routes exist. -/
def appC8 : App :=
  { trailingSlashAlways := false, assets := fun _ => false,
    matchRoute := fun p => if p = "/p" then some pageRouteC2 else none,
    moduleFor := fun _ => { hasOnRequest := false, run := fun _ _ => .err },
    staticFetch := fun s => bodylessResponse s }

/-- A redirect route with a plain string destination `/new` and no declared
status. -/
def plainRedirectRoute : RouteData :=
  { type := .redirect, route := "/old", pattern := fun p => p = "/old",
    fallbackRoutes := [], prerender := false, redirectRoute := none,
    redirect := some (.toPath "/new") }

/-- A redirect route whose destination template mentions `[slug]` twice. -/
def doubleSlugRoute : RouteData :=
  { type := .redirect, route := "/d", pattern := fun p => p = "/d",
    fallbackRoutes := [], prerender := false, redirectRoute := none,
    redirect := some (.toPath "/[slug]/[slug]") }

/-- A redirect route with destination template `/go/[slug]/x`. -/
def singleSlugRoute : RouteData :=
  { type := .redirect, route := "/s", pattern := fun p => p = "/s",
    fallbackRoutes := [], prerender := false, redirectRoute := none,
    redirect := some (.toPath "/go/[slug]/x") }

/-- A route whose own path is `/en/404`: not literally `/404`, but ending in
`/404`. -/
def nestedErrorRoute : RouteData :=
  { type := .page, route := "/en/404", pattern := fun _ => true,
    fallbackRoutes := [], prerender := false, redirectRoute := none,
    redirect := none }

/-- A route whose own pattern rejects the pathname while a fallback route
pattern accepts it. -/
def fallbackMatchRoute : RouteData :=
  { type := .page, route := "/en/x", pattern := fun _ => false,
    fallbackRoutes := [fun _ => true], prerender := false,
    redirectRoute := none, redirect := none }

/-! ## Header-list lemmas -/

theorem headersValues_append (xs ys : HeaderList) (n : String) :
    headersValues (xs ++ ys) n = headersValues xs n ++ headersValues ys n := by
  simp [headersValues, List.filter_append]

theorem headerNameEq_congr (x b c : String) (h : lowerName b = lowerName c) :
    headerNameEq x b = headerNameEq x c := by
  simp [headerNameEq, h]

theorem headersValues_delete_content_type (hs : HeaderList) :
    headersValues (headersDelete hs "Content-type") "content-type" = [] := by
  have hlow : lowerName "Content-type" = lowerName "content-type" := by decide
  induction hs with
  | nil => rfl
  | cons e t ih =>
    simp only [headersDelete, headersValues] at ih ⊢
    rw [List.filter_cons]
    cases hx : headerNameEq e.1 "Content-type"
    · have hq : headerNameEq e.1 "content-type" = false := by
        rw [← headerNameEq_congr e.1 "Content-type" "content-type" hlow]
        exact hx
      simp only [Bool.not_false, if_pos, List.filter_cons, hq, Bool.false_eq_true,
        if_neg, ite_false]
      exact ih
    · simp only [Bool.not_true, Bool.false_eq_true, if_neg, ite_false]
      exact ih

/-! ## Claim C1 -/

/-- C1: for `App.#mergeResponses` called with a new response, an original
response and an optional status override, the final status is the status of
the override when one is supplied; otherwise the new status when the
original status is exactly 200, and the original status in every other
case. -/
theorem mergeResponses_final_status (newResponse orig : HttpResponse) :
    (∀ o : ErrorStatus,
        (mergeResponses newResponse (some orig) (some o)).status = o.toNat)
    ∧ ((mergeResponses newResponse (some orig) none).status =
        if orig.status = 200 then newResponse.status else orig.status) := by
  constructor
  · intro o
    simp [mergeResponses]
  · simp [mergeResponses]

/-! ## Claim C4 -/

/-- C4 counterexample: on a duplicate header name (`x-a`) the original
response does not take precedence; the merged lookup combines both values
(`"1, 2"`), which differs from the original value (`"2"`). -/
theorem mergeResponses_headers_no_original_precedence :
    headersGet (mergeResponses
        { status := 200, statusText := "", headers := [("x-a", "1")], body := some "E" }
        (some { status := 404, statusText := "",
                headers := [("x-a", "2"), ("Content-Type", "text/plain")],
                body := some "O" })
        none).headers "x-a" = some "1, 2"
    ∧ (some "1, 2" : Option String) ≠ some "2" := by
  constructor
  · decide
  · decide

/-- C4 (amended): the merged header list is the new response's entries
followed by the original entries with `Content-type` deleted; the merged
`content-type` lookup is exactly the new (error-page) response's; and every
original entry whose name is not content type is preserved in the merged
list.  On a duplicate name other than content type, both entries are kept
(lookup combines the values) rather than the original taking precedence. -/
theorem mergeResponses_headers (newResponse orig : HttpResponse)
    (o : Option ErrorStatus) :
    (mergeResponses newResponse (some orig) o).headers
        = newResponse.headers ++ headersDelete orig.headers "Content-type"
    ∧ headersGet (mergeResponses newResponse (some orig) o).headers "content-type"
        = headersGet newResponse.headers "content-type"
    ∧ ∀ e ∈ orig.headers, headerNameEq e.1 "Content-type" = false →
        e ∈ (mergeResponses newResponse (some orig) o).headers := by
  have hlist : (mergeResponses newResponse (some orig) o).headers
      = newResponse.headers ++ headersDelete orig.headers "Content-type" := by
    cases o <;> simp [mergeResponses]
  refine ⟨hlist, ?_, ?_⟩
  · rw [hlist]
    unfold headersGet
    rw [headersValues_append, headersValues_delete_content_type, List.append_nil]
  · intro e he hne
    rw [hlist]
    refine List.mem_append_right _ ?_
    unfold headersDelete
    rw [List.mem_filter]
    exact ⟨he, by simp [hne]⟩

/-! ## Case lemmas for the error fallback -/

theorem App.renderError_no_route (a : App) (status : ErrorStatus)
    (orig : Option HttpResponse) (skip : Bool)
    (h : a.matchRoute (a.errorRoutePath status) = none) :
    a.renderError status orig skip
      = mergeResponses (bodylessResponse status) orig none := by
  rw [App.renderError, h]

theorem App.renderError_prerendered (a : App) (status : ErrorStatus)
    (orig : Option HttpResponse) (skip : Bool) (erd : RouteData)
    (h : a.matchRoute (a.errorRoutePath status) = some erd)
    (hp : erd.prerender = true) :
    a.renderError status orig skip
      = mergeResponses (a.staticFetch status) orig (some status) := by
  rw [App.renderError, h]
  simp [hp]

theorem App.renderError_dynamic_ok (a : App) (status : ErrorStatus)
    (orig : Option HttpResponse) (skip : Bool) (erd : RouteData)
    (resp : HttpResponse)
    (h : a.matchRoute (a.errorRoutePath status) = some erd)
    (hp : erd.prerender = false)
    (hrun : (a.moduleFor erd).run status.toNat skip = .ok resp) :
    a.renderError status orig skip = mergeResponses resp orig none := by
  rw [App.renderError, h]
  simp [hp, hrun]

theorem App.renderError_throw_retry (a : App) (status : ErrorStatus)
    (orig : Option HttpResponse) (erd : RouteData)
    (h : a.matchRoute (a.errorRoutePath status) = some erd)
    (hp : erd.prerender = false)
    (hrun : ((a.moduleFor erd).run status.toNat false).throws = true)
    (hm : (a.moduleFor erd).hasOnRequest = true) :
    a.renderError status orig false = a.renderError status orig true := by
  rw [App.renderError, h]
  cases hc : (a.moduleFor erd).run status.toNat false with
  | ok r =>
    rw [hc] at hrun
    simp [RenderOutcome.throws] at hrun
  | endpointNotFound o => simp [hp, hc, hm]
  | err => simp [hp, hc, hm]

theorem App.renderError_throw_give_up (a : App) (status : ErrorStatus)
    (orig : Option HttpResponse) (skip : Bool) (erd : RouteData)
    (h : a.matchRoute (a.errorRoutePath status) = some erd)
    (hp : erd.prerender = false)
    (hrun : ((a.moduleFor erd).run status.toNat skip).throws = true)
    (hcond : skip = true ∨ (a.moduleFor erd).hasOnRequest = false) :
    a.renderError status orig skip
      = mergeResponses (bodylessResponse status) orig none := by
  have hnc : ¬ (skip = false ∧ (a.moduleFor erd).hasOnRequest = true) := by
    rcases hcond with hs | hm
    · rintro ⟨hs', -⟩
      rw [hs] at hs'
      cases hs'
    · rintro ⟨-, hm'⟩
      rw [hm] at hm'
      cases hm'
  rw [App.renderError, h]
  cases hc : (a.moduleFor erd).run status.toNat skip with
  | ok r =>
    rw [hc] at hrun
    simp [RenderOutcome.throws] at hrun
  | endpointNotFound o => simp [hp, hc, hnc]
  | err => simp [hp, hc, hnc]

/-! ## Claim C10 -/

/-- C10: when the render context's route type is endpoint and no
endpoint-result handler is set, `Pipeline.renderRoute` fails with the
dedicated error instead of returning the endpoint's raw result; when a
handler is set, the returned response is exactly the handler applied to the
original request and the endpoint's result. -/
theorem pipelineRenderRoute_endpoint (request : HttpRequest)
    (result : HttpResponse) :
    pipelineRenderRoute none .endpoint request result
      = .error "You created a pipeline that does not know how to handle the result coming from an endpoint."
    ∧ ∀ handler : EndpointResultHandler,
        pipelineRenderRoute (some handler) .endpoint request result
          = .ok (handler request result) := by
  exact ⟨rfl, fun handler => rfl⟩

/-! ## Claim C3 -/

/-- C3 counterexample: for a redirect route with no declared status, a HEAD
request is answered with status 308, not the 301 the claim asserts for
GET/HEAD. -/
theorem redirectRouteStatus_head_is_308 :
    redirectRouteStatus plainRedirectRoute "HEAD" = 308 ∧ (308 : Nat) ≠ 301 := by
  exact ⟨rfl, by decide⟩

/-- C3 (amended): rendering a redirect route produces a bodyless response
whose `location` header is the generated destination and whose status is
`redirectRouteStatus`; that status is the explicitly declared one when the
target route declares a redirect object, and otherwise 301 when the request
method is exactly `GET` and 308 for every other method (including HEAD). -/
theorem renderPage_redirect_status (r : RouteData) (method : String)
    (params : List (String × String)) (pageResult : Option HttpResponse)
    (hr : r.type = .redirect) :
    renderPage r method params pageResult
      = .ok { status := redirectRouteStatus r method, statusText := "",
              headers := [("location", redirectRouteGenerate r params)],
              body := none }
    ∧ redirectRouteStatus r method
      = (match declaredRedirectStatus r with
         | some s => s
         | none => if method = "GET" then 301 else 308) := by
  constructor
  · simp [renderPage, routeIsRedirect, hr]
  · unfold redirectRouteStatus declaredRedirectStatus
    rcases hrr : r.redirectRoute with _ | tr
    · by_cases hm : method = "GET" <;> simp [hm]
    · rcases htr : tr.redirect with _ | cfg
      · by_cases hm : method = "GET" <;> simp [htr, hm]
      · rcases cfg with p | ⟨s, d⟩
        · by_cases hm : method = "GET" <;> simp [htr, hm]
        · simp [htr]

/-- C3 witness: a POST to a redirect route with no declared status is
answered with 308. -/
theorem renderPage_redirect_status_witness :
    redirectRouteStatus plainRedirectRoute "POST" = 308 := by
  rw [(renderPage_redirect_status plainRedirectRoute "POST" [] none rfl).2]
  rfl

/-! ## Claim C6 -/

/-- C6 counterexample: a route whose own path is `/en/404` — not literally
`/404` — is given default status 404 by the code, while the claim assigns it
200. -/
theorem getDefaultStatusCode_nested_404 :
    App.getDefaultStatusCode nestedErrorRoute "/en/404" = 404
    ∧ claimedDefaultStatusC6 nestedErrorRoute "/en/404" = 200 := by
  exact ⟨rfl, rfl⟩

/-- C6 (amended): the default status is 302 when the route's own pattern
does not match the pathname and one of its declared fallback routes'
patterns does; in every other case it is 404 when the route's path, with a
trailing slash removed, ends with `/404`, 500 when it ends with `/500`, and
200 otherwise. -/
theorem getDefaultStatusCode_spec (rd : RouteData) (p : String) :
    (rd.pattern p = false → rd.fallbackRoutes.any (fun fb => fb p) = true →
        App.getDefaultStatusCode rd p = 302)
    ∧ ((rd.pattern p = true ∨ rd.fallbackRoutes.any (fun fb => fb p) = false) →
        App.getDefaultStatusCode rd p =
          (if strEndsWith (removeTrailingForwardSlash rd.route) "/404" then 404
           else if strEndsWith (removeTrailingForwardSlash rd.route) "/500" then 500
           else 200)) := by
  unfold App.getDefaultStatusCode
  constructor
  · intro h1 h2
    simp [h1, h2]
  · rintro (h | h) <;> simp [h]

/-- C6 witness: for a route whose own pattern rejects the pathname while a
declared fallback route matches it, the default status is 302. -/
theorem getDefaultStatusCode_spec_witness :
    App.getDefaultStatusCode fallbackMatchRoute "/x" = 302 :=
  (getDefaultStatusCode_spec fallbackMatchRoute "/x").1 rfl rfl

/-! ## Claim C2 -/

/-- C2 counterexample: a fallback-type route — which is not an endpoint —
renders a 404 response, yet `render` returns it directly; the error-fallback
path would produce a different (bodyless) response. -/
theorem render_fallback_route_returned_directly :
    appC2.render { pathname := "/fb", method := "GET" } = directResponseC2
    ∧ appC2.renderError .s404 (some directResponseC2) false ≠ directResponseC2 := by
  constructor
  · rfl
  · rw [App.renderError_no_route appC2 .s404 (some directResponseC2) false rfl]
    decide

/-- C2 (amended): for a matched page or redirect route, a rendered response
with status 404 or 500 sends `render` into the error-fallback path with that
status and the response as the original, and any other status is returned
directly; for endpoint and fallback-type routes the response is returned
directly whatever its status. -/
theorem render_status_dispatch (a : App) (req : HttpRequest) (rd : RouteData)
    (resp : HttpResponse)
    (hm : a.matchRequest req.pathname = some rd)
    (hrun : (a.moduleFor rd).run (App.getDefaultStatusCode rd req.pathname) false
      = .ok resp) :
    ((rd.type = .page ∨ rd.type = .redirect) →
        (resp.status = 404 →
            a.render req = a.renderError .s404 (some resp) false)
        ∧ (resp.status = 500 →
            a.render req = a.renderError .s500 (some resp) false)
        ∧ (resp.status ≠ 404 → resp.status ≠ 500 → a.render req = resp))
    ∧ ((rd.type = .endpoint ∨ rd.type = .fallback) → a.render req = resp) := by
  have hrender : a.render req =
      (if rd.type = RouteType.page ∨ rd.type = RouteType.redirect then
        if resp.status = 404 then a.renderError .s404 (some resp) false
        else if resp.status = 500 then a.renderError .s500 (some resp) false
        else resp
      else resp) := by
    simp only [App.render, hm, hrun]
  refine ⟨fun htype => ⟨?_, ?_, ?_⟩, fun htype => ?_⟩
  · intro h404
    rw [hrender, if_pos htype, if_pos h404]
  · intro h500
    have hne : resp.status ≠ 404 := by
      rw [h500]
      decide
    rw [hrender, if_pos htype, if_neg hne, if_pos h500]
  · intro h404 h500
    rw [hrender, if_pos htype, if_neg h404, if_neg h500]
  · have hneg : ¬ (rd.type = RouteType.page ∨ rd.type = RouteType.redirect) := by
      rcases htype with h | h <;> rw [h] <;> decide
    rw [hrender, if_neg hneg]

/-- C2 witness: for a page route rendering a 404 response, `render` enters
the error-fallback path with that response as original. -/
theorem render_status_dispatch_witness :
    appC2W.render { pathname := "/p", method := "GET" }
      = appC2W.renderError .s404 (some directResponseC2) false :=
  ((render_status_dispatch appC2W { pathname := "/p", method := "GET" }
      pageRouteC2 directResponseC2 rfl rfl).1 (Or.inl rfl)).1 rfl

/-! ## Claim C5 -/

/-- C5 counterexample: against an app whose dynamic `/404` page renders a
200 response, a request matching no route is answered with status 200, not
404. -/
theorem render_no_match_returns_200 :
    (appC5.render { pathname := "/missing", method := "GET" }).status = 200
    ∧ (200 : Nat) ≠ 404 := by
  constructor
  · have hr : appC5.render { pathname := "/missing", method := "GET" }
        = appC5.renderError .s404 none false := rfl
    rw [hr, App.renderError_dynamic_ok appC5 .s404 none false errorRouteC5
        okResponseC5 rfl rfl rfl]
    rfl
  · decide

/-- C5 (amended): a request whose pathname matches no route enters the 404
error fallback.  When no `/404` route exists the result is a bodyless 404
response.  When a prerendered `/404` route exists the result has status 404
and the static document's body.  When a dynamic `/404` route renders
successfully, its rendered response is returned as-is — the render context's
default status is 404, so the status is 404 exactly when the error-page
render keeps that default. -/
theorem render_no_match (a : App) (req : HttpRequest)
    (h : a.matchRoute req.pathname = none) :
    a.render req = a.renderError .s404 none false
    ∧ (a.matchRoute (a.errorRoutePath .s404) = none →
        a.render req = bodylessResponse .s404)
    ∧ (∀ erd, a.matchRoute (a.errorRoutePath .s404) = some erd →
        erd.prerender = true →
        (a.render req).status = 404
        ∧ (a.render req).body = (a.staticFetch .s404).body)
    ∧ (∀ erd resp, a.matchRoute (a.errorRoutePath .s404) = some erd →
        erd.prerender = false →
        (a.moduleFor erd).run 404 false = .ok resp →
        a.render req = resp) := by
  have hm : a.matchRequest req.pathname = none := by
    unfold App.matchRequest
    rw [h]
    simp
  have hr : a.render req = a.renderError .s404 none false := by
    simp [App.render, hm]
  refine ⟨hr, ?_, ?_, ?_⟩
  · intro h404
    rw [hr, App.renderError_no_route a .s404 none false h404]
    rfl
  · intro erd h404 hp
    rw [hr, App.renderError_prerendered a .s404 none false erd h404 hp]
    exact ⟨rfl, rfl⟩
  · intro erd resp h404 hp hrun
    rw [hr, App.renderError_dynamic_ok a .s404 none false erd resp h404 hp hrun]
    rfl

/-- C5 witness: with a dynamic `/404` page that keeps the default status,
a request matching no route is answered with a 404 response carrying the
error page's body. -/
theorem render_no_match_witness :
    appC5W.render { pathname := "/missing", method := "GET" }
      = { status := 404, statusText := "", headers := [],
          body := some "not found page" } :=
  (render_no_match appC5W { pathname := "/missing", method := "GET" }
      rfl).2.2.2 errorRouteC5 _ rfl rfl rfl

/-! ## Claim C7 -/

/-- C7 counterexample: the error module declares no `onRequest` middleware;
its render throws, and the shell does not retry with `skipMiddleware = true`
(the retry would have produced `retryResponseC7`) but goes straight to the
fabricated bodyless response. -/
theorem renderError_no_retry_without_middleware :
    appC7.renderError .s404 none false = bodylessResponse .s404
    ∧ appC7.renderError .s404 none true = retryResponseC7
    ∧ bodylessResponse .s404 ≠ retryResponseC7 := by
  refine ⟨?_, ?_, by decide⟩
  · rw [App.renderError_throw_give_up appC7 .s404 none false errorRouteC5
        rfl rfl rfl (Or.inr rfl)]
    rfl
  · rw [App.renderError_dynamic_ok appC7 .s404 none true errorRouteC5
        retryResponseC7 rfl rfl rfl]
    rfl

/-- C7 (amended): when the dynamic error-route render throws and the error
module exports `onRequest`, the shell retries exactly once with
`skipMiddleware = true`; when it throws and no `onRequest` is exported, it
gives up immediately; and a retry with `skipMiddleware = true` that throws
never recurses again — it fabricates the bodyless response merged with the
original, so the recursion is bounded by one retry. -/
theorem renderError_bounded_retry (a : App) (status : ErrorStatus)
    (orig : Option HttpResponse) (erd : RouteData)
    (h : a.matchRoute (a.errorRoutePath status) = some erd)
    (hp : erd.prerender = false) :
    (((a.moduleFor erd).run status.toNat false).throws = true →
        ((a.moduleFor erd).hasOnRequest = true →
            a.renderError status orig false = a.renderError status orig true)
        ∧ ((a.moduleFor erd).hasOnRequest = false →
            a.renderError status orig false
              = mergeResponses (bodylessResponse status) orig none))
    ∧ (((a.moduleFor erd).run status.toNat true).throws = true →
        a.renderError status orig true
          = mergeResponses (bodylessResponse status) orig none) := by
  refine ⟨fun hrun => ⟨fun hmw => ?_, fun hmw => ?_⟩, fun hrun => ?_⟩
  · exact App.renderError_throw_retry a status orig erd h hp hrun hmw
  · exact App.renderError_throw_give_up a status orig false erd h hp hrun (Or.inr hmw)
  · exact App.renderError_throw_give_up a status orig true erd h hp hrun (Or.inl rfl)

/-- C7 witness: an error module with `onRequest` whose render always throws
is retried once with middleware skipped, and the retry gives the fabricated
bodyless 404. -/
theorem renderError_bounded_retry_witness :
    appC7W.renderError .s404 none false = appC7W.renderError .s404 none true
    ∧ appC7W.renderError .s404 none true = bodylessResponse .s404 := by
  have h := renderError_bounded_retry appC7W .s404 none errorRouteC5 rfl rfl
  refine ⟨(h.1 rfl).1 rfl, ?_⟩
  rw [h.2 rfl]
  rfl

/-! ## Claim C8 -/

/-- C8: an `EndpointNotFoundError` thrown during the pipeline render maps to
the 404 error fallback carrying the error's original response, and any other
thrown error maps to the 500 error fallback with no original response. -/
theorem render_thrown_error_mapping (a : App) (req : HttpRequest)
    (rd : RouteData)
    (hm : a.matchRequest req.pathname = some rd) :
    (∀ orig,
        (a.moduleFor rd).run (App.getDefaultStatusCode rd req.pathname) false
            = .endpointNotFound orig →
        a.render req = a.renderError .s404 orig false)
    ∧ ((a.moduleFor rd).run (App.getDefaultStatusCode rd req.pathname) false
          = .err →
        a.render req = a.renderError .s500 none false) := by
  constructor
  · intro orig hrun
    simp [App.render, hm, hrun]
  · intro hrun
    simp [App.render, hm, hrun]

/-- C8 witness: a page route whose render throws a generic error, with no
`/500` route present, is answered by the fabricated bodyless 500. -/
theorem render_thrown_error_mapping_witness :
    appC8.render { pathname := "/p", method := "GET" }
      = bodylessResponse .s500 := by
  rw [(render_thrown_error_mapping appC8 { pathname := "/p", method := "GET" }
      pageRouteC2 rfl).2 rfl,
    App.renderError_no_route appC8 .s500 none false rfl]
  rfl

/-- C4 witness: the original response's non-content-type header (`x-a: 2`)
is preserved in the merged header list. -/
theorem mergeResponses_headers_witness :
    (("x-a", "2") : String × String)
      ∈ (mergeResponses
          { status := 200, statusText := "", headers := [("x-a", "1")], body := some "E" }
          (some { status := 404, statusText := "",
                  headers := [("x-a", "2"), ("Content-Type", "text/plain")],
                  body := some "O" })
          none).headers :=
  (mergeResponses_headers _ _ none).2.2 ("x-a", "2") (by decide) (by decide)

/-! ## Replacement lemmas for redirect templates -/

theorem stringEq_of_data {s t : String} (h : s.data = t.data) : s = t := by
  cases s
  cases t
  exact congrArg String.mk h

theorem isPrefixOf_self_append {α : Type} [BEq α] [LawfulBEq α]
    (l t : List α) : l.isPrefixOf (l ++ t) = true := by
  induction l with
  | nil => simp [List.isPrefixOf]
  | cons a as ih => simp [List.isPrefixOf, ih]

theorem replaceFirstList_of_not_mem (c : Char) (pt rep s : List Char)
    (hc : c ∉ s) : replaceFirstList (c :: pt) rep s = s := by
  induction s with
  | nil => rfl
  | cons x t ih =>
    have hxc : (c == x) = false :=
      beq_eq_false_iff_ne.2 (fun he => hc (he ▸ List.mem_cons_self x t))
    have hct : c ∉ t := fun hmem => hc (List.mem_cons_of_mem x hmem)
    simp [replaceFirstList, List.isPrefixOf, hxc, ih hct]

theorem replaceFirstList_append (c : Char) (pt rep pre post : List Char)
    (hc : c ∉ pre) :
    replaceFirstList (c :: pt) rep (pre ++ (c :: pt) ++ post)
      = pre ++ rep ++ post := by
  induction pre with
  | nil =>
    have h1 : (c :: pt).isPrefixOf (c :: (pt ++ post)) = true :=
      isPrefixOf_self_append (c :: pt) post
    simp [replaceFirstList, h1, List.drop_left]
  | cons x xs ih =>
    have hxc : (c == x) = false :=
      beq_eq_false_iff_ne.2 (fun he => hc (he ▸ List.mem_cons_self x xs))
    have hcxs : c ∉ xs := fun hmem => hc (List.mem_cons_of_mem x hmem)
    simp only [List.cons_append, replaceFirstList, List.isPrefixOf, hxc,
      Bool.false_and, Bool.false_eq_true, if_false]
    exact congrArg (List.cons x) (ih hcxs)

/-! ## Claim C9 -/

/-- C9 counterexample: a destination template mentioning `[slug]` twice is
only substituted at its first occurrence (JS `String.prototype.replace` with
a string pattern), so a bracket token remains. -/
theorem redirectRouteGenerate_double_slug :
    redirectRouteGenerate doubleSlugRoute [("slug", "abc")] = "/abc/[slug]"
    ∧ '[' ∈ ("/abc/[slug]" : String).data := by
  exact ⟨by decide, by decide⟩

/-- C9 (amended): for a redirect route whose string destination template
contains exactly one occurrence of `[slug]` and no other bracket characters,
`generate` with `params = { slug: "abc" }` replaces `[slug]` with `abc` and
no bracket tokens remain.  (In general only the first occurrence of each
bracketed param token is substituted.) -/
theorem redirectRouteGenerate_slug (rt : RouteData) (pre post : String)
    (hrr : rt.redirectRoute = none)
    (hred : rt.redirect = some (.toPath (pre ++ "[slug]" ++ post)))
    (hpre1 : '[' ∉ pre.data) (hpre2 : ']' ∉ pre.data)
    (hpost1 : '[' ∉ post.data) (hpost2 : ']' ∉ post.data) :
    redirectRouteGenerate rt [("slug", "abc")] = pre ++ "abc" ++ post
    ∧ ∀ ch ∈ (redirectRouteGenerate rt [("slug", "abc")]).data,
        ch ≠ '[' ∧ ch ≠ ']' := by
  have hgen : redirectRouteGenerate rt [("slug", "abc")]
      = replaceFirst (replaceFirst (pre ++ "[slug]" ++ post) ("[" ++ "slug" ++ "]") "abc")
          ("[..." ++ "slug" ++ "]") "abc" := by
    simp [redirectRouteGenerate, hrr, hred]
  have hd1 : (replaceFirst (pre ++ "[slug]" ++ post) ("[" ++ "slug" ++ "]") "abc").data
      = pre.data ++ ("abc" : String).data ++ post.data := by
    show replaceFirstList ("[" ++ "slug" ++ "]" : String).data ("abc" : String).data
        (pre ++ "[slug]" ++ post).data = _
    have hp : ("[" ++ "slug" ++ "]" : String).data
        = '[' :: ['s', 'l', 'u', 'g', ']'] := rfl
    have ht : (pre ++ "[slug]" ++ post).data
        = pre.data ++ ('[' :: ['s', 'l', 'u', 'g', ']']) ++ post.data := rfl
    rw [hp, ht]
    exact replaceFirstList_append '[' ['s', 'l', 'u', 'g', ']']
      ("abc" : String).data pre.data post.data hpre1
  have hd2 : (replaceFirst (replaceFirst (pre ++ "[slug]" ++ post) ("[" ++ "slug" ++ "]") "abc")
      ("[..." ++ "slug" ++ "]") "abc").data
      = pre.data ++ ("abc" : String).data ++ post.data := by
    show replaceFirstList ("[..." ++ "slug" ++ "]" : String).data ("abc" : String).data
        (replaceFirst (pre ++ "[slug]" ++ post) ("[" ++ "slug" ++ "]") "abc").data = _
    rw [hd1]
    have hp : ("[..." ++ "slug" ++ "]" : String).data
        = '[' :: ['.', '.', '.', 's', 'l', 'u', 'g', ']'] := rfl
    rw [hp]
    refine replaceFirstList_of_not_mem '[' _ _ _ ?_
    intro hmem
    rcases List.mem_append.1 hmem with hmem2 | hpost
    · rcases List.mem_append.1 hmem2 with hpre | habc
      · exact hpre1 hpre
      · exact absurd habc (by decide)
    · exact hpost1 hpost
  have hdata : (redirectRouteGenerate rt [("slug", "abc")]).data
      = pre.data ++ ("abc" : String).data ++ post.data := by
    rw [hgen, hd2]
  constructor
  · refine stringEq_of_data ?_
    rw [hdata]
    rfl
  · intro ch hch
    rw [hdata] at hch
    rcases List.mem_append.1 hch with hch2 | hpost
    · rcases List.mem_append.1 hch2 with hpre | habc
      · exact ⟨fun he => hpre1 (he ▸ hpre), fun he => hpre2 (he ▸ hpre)⟩
      · have habc' : ch ∈ ['a', 'b', 'c'] := habc
        simp only [List.mem_cons, List.not_mem_nil, or_false] at habc'
        rcases habc' with rfl | rfl | rfl <;> exact ⟨by decide, by decide⟩
    · exact ⟨fun he => hpost1 (he ▸ hpost), fun he => hpost2 (he ▸ hpost)⟩

/-- C9 witness: the template `/go/[slug]/x` with `slug = "abc"` generates
`/go/abc/x`. -/
theorem redirectRouteGenerate_slug_witness :
    redirectRouteGenerate singleSlugRoute [("slug", "abc")]
      = "/go/" ++ "abc" ++ "/x" :=
  (redirectRouteGenerate_slug singleSlugRoute "/go/" "/x" rfl rfl
    (by decide) (by decide) (by decide) (by decide)).1

end Astro
